import Mathlib

/-!
Shallow embedding of the Circle/Follow social-connection logic of the
tapcard backend (`routers/social.py`), together with proofs of the
specification's claims about it.

Identities (UUIDs) are modelled as natural numbers; the `circles` table is a
list of rows; SQLAlchemy's `.first()` is the first matching element of that
list, `.all()`/`.count()` are `List.filter`/its length, `db.delete` of a row
found by `.first()` removes the first matching element, and an in-place
status update on such a row rewrites the first matching element.
-/

namespace Tapcard

/-- Relationship status stored in the `status` column of the `circles` table
(the only three values the router ever writes). -/
inductive Status where
  | pending
  | accepted
  | rejected
deriving DecidableEq, Repr

/-- A row of the `circles` table: `requester_id`, `receiver_id`, `status`
(the `id` and `created_at` columns play no role in the router's logic). -/
structure Circle where
  requester : Nat
  receiver : Nat
  status : Status
deriving DecidableEq, Repr

/-- A row of the `users` table, restricted to the fields the social router
reads. -/
structure User where
  id : Nat
  username : String
  fullname : String
  email : String
  bio : String
deriving DecidableEq, Repr

/-- Database state visible to the social router. -/
structure DB where
  users : List User
  circles : List Circle
deriving DecidableEq, Repr

/-- The typed error taxonomy of the router's HTTPException branches. -/
inductive SocialError where
  | selfReference
  | targetNotFound
  | duplicateInvite
  | reverseInvitePending
  | alreadyConnected
  | noPendingInvite
  | notConnected
deriving DecidableEq, Repr

/-- The connection-status strings returned by `get_connection_status`. -/
inductive ConnStatus where
  | none
  | pending
  | connected
deriving DecidableEq, Repr

/-- The row filter used by the router to find the relationship row of the
unordered user pair: requester/receiver in either direction. -/
def pairFilter (a b : Nat) (r : Circle) : Bool :=
  (r.requester == a && r.receiver == b) || (r.requester == b && r.receiver == a)

/-- `db.query(User).filter(User.id == uid).first()` is not `None`. -/
def userExists (db : DB) (uid : Nat) : Bool :=
  (db.users.find? (fun u => u.id == uid)).isSome

/-- `get_connection_status(db, current_user_id, other_user_id)`. -/
def get_connection_status (db : DB) (current_user_id other_user_id : Nat) :
    ConnStatus × Bool :=
  match db.circles.find? (pairFilter current_user_id other_user_id) with
  | Option.none => (ConnStatus.none, false)
  | Option.some matched =>
    match matched.status with
    | Status.accepted => (ConnStatus.connected, false)
    | Status.pending =>
      if matched.requester == current_user_id then (ConnStatus.pending, true)
      else (ConnStatus.pending, false)
    | Status.rejected => (ConnStatus.none, false)

/-- `get_user_connections_count(db, user_id)`: count of rows where the user
is either endpoint and `status == "accepted"`. -/
def get_user_connections_count (db : DB) (user_id : Nat) : Nat :=
  (db.circles.filter (fun r =>
    (r.requester == user_id || r.receiver == user_id)
      && r.status == Status.accepted)).length

/-- `invite_to_circle(user_id, db, current_user)`. On an error branch the
router raises before any write, so the state component is returned
unchanged there. -/
def invite_to_circle (db : DB) (current_user user_id : Nat) :
    Except SocialError Circle × DB :=
  if user_id == current_user then (Except.error SocialError.selfReference, db)
  else if !userExists db user_id then (Except.error SocialError.targetNotFound, db)
  else
    match db.circles.find? (pairFilter current_user user_id) with
    | Option.some existing_circle =>
      match existing_circle.status with
      | Status.pending =>
        if existing_circle.requester == current_user then
          (Except.error SocialError.duplicateInvite, db)
        else
          (Except.error SocialError.reverseInvitePending, db)
      | Status.accepted => (Except.error SocialError.alreadyConnected, db)
      | Status.rejected =>
        let remaining := db.circles.eraseP (pairFilter current_user user_id)
        let circle : Circle := ⟨current_user, user_id, Status.pending⟩
        (Except.ok circle, { db with circles := remaining ++ [circle] })
    | Option.none =>
      let circle : Circle := ⟨current_user, user_id, Status.pending⟩
      (Except.ok circle, { db with circles := db.circles ++ [circle] })

/-- The row filter of `accept_circle_invite` / `reject_circle_invite`:
`requester_id == user_id, receiver_id == current_user.id, status == "pending"`. -/
def pendingFromFilter (user_id current_user : Nat) (r : Circle) : Bool :=
  r.requester == user_id && r.receiver == current_user
    && r.status == Status.pending

/-- Rewrite the status of the first row satisfying `p` (the in-place
`circle.status = ...` update on the row returned by `.first()`). -/
def setStatusFirst (p : Circle → Bool) (s : Status) : List Circle → List Circle
  | [] => []
  | r :: rs =>
    if p r then { r with status := s } :: rs else r :: setStatusFirst p s rs

/-- `accept_circle_invite(user_id, db, current_user)`. -/
def accept_circle_invite (db : DB) (current_user user_id : Nat) :
    Except SocialError Circle × DB :=
  if user_id == current_user then (Except.error SocialError.selfReference, db)
  else
    match db.circles.find? (pendingFromFilter user_id current_user) with
    | Option.none => (Except.error SocialError.noPendingInvite, db)
    | Option.some matched =>
      let circles2 :=
        setStatusFirst (pendingFromFilter user_id current_user) Status.accepted db.circles
      (Except.ok { matched with status := Status.accepted }, { db with circles := circles2 })

/-- `reject_circle_invite(user_id, db, current_user)`. -/
def reject_circle_invite (db : DB) (current_user user_id : Nat) :
    Except SocialError Circle × DB :=
  if user_id == current_user then (Except.error SocialError.selfReference, db)
  else
    match db.circles.find? (pendingFromFilter user_id current_user) with
    | Option.none => (Except.error SocialError.noPendingInvite, db)
    | Option.some matched =>
      let circles2 :=
        setStatusFirst (pendingFromFilter user_id current_user) Status.rejected db.circles
      (Except.ok { matched with status := Status.rejected }, { db with circles := circles2 })

/-- One entry of the `/search`, `/circle/connections` and `/circle/pending`
responses, as constructed in `build_circle_user_response`. -/
structure UserCircleSearchResponse where
  id : Nat
  username : String
  fullname : String
  bio : String
  connection_status : ConnStatus
  is_invited_by_me : Bool
  connections_count : Nat
deriving DecidableEq, Repr

/-- The `/circle/connections/{user_id}` response shape. -/
structure ConnectionsResponse where
  connections : List UserCircleSearchResponse
  total_count : Nat
deriving DecidableEq, Repr

/-- `build_circle_user_response(db, user, current_user_id)`. -/
def build_circle_user_response (db : DB) (user : User) (current_user_id : Nat) :
    UserCircleSearchResponse :=
  let statusPair := get_connection_status db current_user_id user.id
  { id := user.id
    username := user.username
    fullname := user.fullname
    bio := user.bio
    connection_status := statusPair.1
    is_invited_by_me := statusPair.2
    connections_count := get_user_connections_count db user.id }

/-- The filter of the `get_user_connections` query: accepted rows where
`user_id` is either endpoint. -/
def connectionsFilter (user_id : Nat) (r : Circle) : Bool :=
  (r.requester == user_id && r.status == Status.accepted)
    || (r.receiver == user_id && r.status == Status.accepted)

/-- The other endpoint of a row relative to `user_id`, as computed in
`get_user_connections`. -/
def otherEndpoint (user_id : Nat) (r : Circle) : Nat :=
  if r.requester == user_id then r.receiver else r.requester

/-- `get_user_connections(user_id, db, current_user)`: one response entry per
accepted row whose other endpoint has a user record (rows whose other
endpoint has no user record are silently skipped by the `if user:` guard). -/
def get_user_connections (db : DB) (current_user user_id : Nat) :
    ConnectionsResponse :=
  let rows := db.circles.filter (connectionsFilter user_id)
  let connections := rows.filterMap (fun r =>
    (db.users.find? (fun u => u.id == otherEndpoint user_id r)).map
      (fun u => build_circle_user_response db u current_user))
  { connections := connections, total_count := connections.length }

/-- Case-insensitive SQL `ILIKE '%pat%'` containment on char lists. -/
def charsLeading : List Char → List Char → Bool
  | [], _ => true
  | _ :: _, [] => false
  | a :: as, b :: bs => a == b && charsLeading as bs

/-- Containment of `pat` as a contiguous run of `l`. -/
def charsContains (pat : List Char) : List Char → Bool
  | [] => pat.isEmpty
  | c :: t => charsLeading pat (c :: t) || charsContains pat t

/-- `column.ilike(f"%{q}%")`: case-insensitive substring match. -/
def ilike (s pat : String) : Bool :=
  charsContains (pat.data.map Char.toLower) (s.data.map Char.toLower)

/-- The user filter of `/search`: query matches username, fullname or email. -/
def searchMatches (q : String) (u : User) : Bool :=
  ilike u.username q || ilike u.fullname q || ilike u.email q

/-- `search_users(q, limit, db, current_user)`: matching users other than the
caller, truncated to `limit`, each annotated via `build_circle_user_response`. -/
def search_users (db : DB) (current_user : Nat) (q : String) (limit : Nat) :
    List UserCircleSearchResponse :=
  let users := ((db.users.filter (searchMatches q)).filter
    (fun u => !(u.id == current_user))).take limit
  users.map (fun u => build_circle_user_response db u current_user)

/-- The row filter of `remove_circle_connection`: the unordered pair in
either direction, with `status == "accepted"`. -/
def acceptedPairFilter (a b : Nat) (r : Circle) : Bool :=
  pairFilter a b r && r.status == Status.accepted

/-- `remove_circle_connection(user_id, db, current_user)`. -/
def remove_circle_connection (db : DB) (current_user user_id : Nat) :
    Except SocialError Unit × DB :=
  if user_id == current_user then (Except.error SocialError.selfReference, db)
  else
    match db.circles.find? (acceptedPairFilter current_user user_id) with
    | Option.none => (Except.error SocialError.notConnected, db)
    | Option.some _ =>
      (Except.ok (),
       { db with circles := db.circles.eraseP (acceptedPairFilter current_user user_id) })

/-- `follow_user_deprecated(user_id, db, current_user)`:
`return invite_to_circle(user_id, db, current_user)`. -/
def follow_user_deprecated (db : DB) (current_user user_id : Nat) :
    Except SocialError Circle × DB :=
  invite_to_circle db current_user user_id

/-- `unfollow_user_deprecated(user_id, db, current_user)`:
`return remove_circle_connection(user_id, db, current_user)`. -/
def unfollow_user_deprecated (db : DB) (current_user user_id : Nat) :
    Except SocialError Unit × DB :=
  remove_circle_connection db current_user user_id

/-- `get_followers_deprecated(user_id, db, current_user)`:
`return get_user_connections(user_id, db, current_user).connections`. -/
def get_followers_deprecated (db : DB) (current_user user_id : Nat) :
    List UserCircleSearchResponse :=
  (get_user_connections db current_user user_id).connections

/-- `get_following_deprecated(user_id, db, current_user)`:
`return get_user_connections(user_id, db, current_user).connections`. -/
def get_following_deprecated (db : DB) (current_user user_id : Nat) :
    List UserCircleSearchResponse :=
  (get_user_connections db current_user user_id).connections

/-- One mutating request against the social router, with the resolved caller
identity as first argument. -/
inductive Op where
  | invite (current_user user_id : Nat)
  | accept (current_user user_id : Nat)
  | reject (current_user user_id : Nat)
  | remove (current_user user_id : Nat)
deriving DecidableEq, Repr

/-- Database state after serving one request (a failed request leaves the
state unchanged, since every HTTPException is raised before any write). -/
def applyOp (db : DB) : Op → DB
  | Op.invite c t => (invite_to_circle db c t).2
  | Op.accept c t => (accept_circle_invite db c t).2
  | Op.reject c t => (reject_circle_invite db c t).2
  | Op.remove c t => (remove_circle_connection db c t).2

/-- Database state after serving a sequence of requests in order. -/
def runOps (db : DB) (ops : List Op) : DB :=
  ops.foldl applyOp db

/-- The circles-table states committed (in order) by the `db.commit()` calls
of `invite_to_circle`; error branches raise before any commit. The
rejected-row branch commits twice: once right after the delete, once after
the insert. -/
def inviteCommits (db : DB) (current_user user_id : Nat) : List (List Circle) :=
  if user_id == current_user then []
  else if !userExists db user_id then []
  else
    match db.circles.find? (pairFilter current_user user_id) with
    | Option.some existing_circle =>
      match existing_circle.status with
      | Status.pending => []
      | Status.accepted => []
      | Status.rejected =>
        let remaining := db.circles.eraseP (pairFilter current_user user_id)
        [remaining, remaining ++ [⟨current_user, user_id, Status.pending⟩]]
    | Option.none => [db.circles ++ [⟨current_user, user_id, Status.pending⟩]]

/-- The circles-table states committed by `accept_circle_invite`. -/
def acceptCommits (db : DB) (current_user user_id : Nat) : List (List Circle) :=
  if user_id == current_user then []
  else
    match db.circles.find? (pendingFromFilter user_id current_user) with
    | Option.none => []
    | Option.some _ =>
      [setStatusFirst (pendingFromFilter user_id current_user) Status.accepted db.circles]

/-- The circles-table states committed by `reject_circle_invite`. -/
def rejectCommits (db : DB) (current_user user_id : Nat) : List (List Circle) :=
  if user_id == current_user then []
  else
    match db.circles.find? (pendingFromFilter user_id current_user) with
    | Option.none => []
    | Option.some _ =>
      [setStatusFirst (pendingFromFilter user_id current_user) Status.rejected db.circles]

/-- The circles-table states committed by `remove_circle_connection`. -/
def removeCommits (db : DB) (current_user user_id : Nat) : List (List Circle) :=
  if user_id == current_user then []
  else
    match db.circles.find? (acceptedPairFilter current_user user_id) with
    | Option.none => []
    | Option.some _ => [db.circles.eraseP (acceptedPairFilter current_user user_id)]

/-- The rows of the circles table that concern the unordered pair `{a, b}`
(the filter behind every `.first()` pair lookup of the router). -/
def pairRows (db : DB) (a b : Nat) : List Circle :=
  db.circles.filter (pairFilter a b)

/-- No row of the table relates a user to itself. -/
def NoSelfRows (cs : List Circle) : Prop :=
  ∀ r ∈ cs, r.requester ≠ r.receiver

/-- Each unordered pair of users has at most one row, of any status. -/
def PairUnique (cs : List Circle) : Prop :=
  ∀ a b : Nat, (cs.filter (pairFilter a b)).length ≤ 1

/-- Well-formedness of the circles table preserved by every operation. -/
def TableWf (cs : List Circle) : Prop :=
  NoSelfRows cs ∧ PairUnique cs

/-- A user record whose only distinguishing field is its id. -/
def demoUser (n : Nat) (s : String) : User :=
  ⟨n, s, s, s, s⟩

/-- A two-user directory used by the concrete witnesses. -/
def demoUsers : List User :=
  [demoUser 1 "alice", demoUser 2 "bob"]

/-- Concrete database with a rejected row between users 2 and 1, used to
exercise the re-invite branch. -/
def dbC2 : DB :=
  ⟨demoUsers, [⟨2, 1, Status.rejected⟩]⟩

/-- Concrete database with a pending invite from user 2 to user 1. -/
def dbC3 : DB :=
  ⟨demoUsers, [⟨2, 1, Status.pending⟩]⟩

/-- Concrete database with an accepted connection between users 1 and 2. -/
def dbC4 : DB :=
  ⟨demoUsers, [⟨1, 2, Status.accepted⟩]⟩

/-- Concrete database with a rejected row between users 2 and 1, used to
exercise the two-commit re-invite path. -/
def dbC6 : DB :=
  ⟨demoUsers, [⟨2, 1, Status.rejected⟩]⟩

/-- Concrete database with an accepted connection between users 1 and 2,
used to evaluate the Connections query. -/
def dbC8 : DB :=
  ⟨demoUsers, [⟨1, 2, Status.accepted⟩]⟩

theorem find?_eq_filter_head? {α : Type} (p : α → Bool) (l : List α) :
    l.find? p = (l.filter p).head? := by
  induction l with
  | nil => rfl
  | cons x xs ih =>
    by_cases hx : p x = true
    · rw [List.find?_cons_of_pos xs hx, List.filter_cons_of_pos hx, List.head?_cons]
    · simp only [Bool.not_eq_true] at hx
      rw [List.find?_cons_of_neg xs (by simp [hx]), List.filter_cons_of_neg (by simp [hx]), ih]

theorem find?_of_filter_singleton {α : Type} {p : α → Bool} {l : List α} {r : α}
    (h : l.filter p = [r]) : l.find? p = some r := by
  rw [find?_eq_filter_head?, h]; rfl

theorem filter_eraseP_of_length_le_one {α : Type} {p : α → Bool} {l : List α}
    (h : (l.filter p).length ≤ 1) : (l.eraseP p).filter p = [] := by
  induction l with
  | nil => rfl
  | cons x xs ih =>
    by_cases hx : p x = true
    · rw [List.eraseP_cons_of_pos hx]
      rw [List.filter_cons_of_pos hx] at h
      simp only [List.length_cons] at h
      exact List.length_eq_zero.mp (by omega)
    · simp only [Bool.not_eq_true] at hx
      rw [List.eraseP_cons_of_neg (by simp [hx]), List.filter_cons_of_neg (by simp [hx])]
      rw [List.filter_cons_of_neg (by simp [hx])] at h
      exact ih h

theorem pairFilter_comm (a b : Nat) (r : Circle) :
    pairFilter a b r = pairFilter b a r := by
  simp [pairFilter, Bool.or_comm]

theorem pairFilter_mk (a b c t : Nat) (s : Status) :
    pairFilter a b ⟨c, t, s⟩ = ((c == a && t == b) || (c == b && t == a)) := rfl

theorem pairFilter_agree {a b c t : Nat} {s : Status}
    (h : pairFilter a b ⟨c, t, s⟩ = true) :
    ∀ r, pairFilter a b r = pairFilter c t r := by
  rw [pairFilter_mk] at h
  simp only [Bool.or_eq_true, Bool.and_eq_true, beq_iff_eq] at h
  rcases h with ⟨ha, hb⟩ | ⟨ha, hb⟩
  · subst ha; subst hb; intro r; rfl
  · subst ha; subst hb; intro r; exact (pairFilter_comm _ _ r).symm

theorem setStatusFirst_length (p : Circle → Bool) (s : Status) (l : List Circle) :
    (setStatusFirst p s l).length = l.length := by
  induction l with
  | nil => rfl
  | cons r rs ih =>
    by_cases hr : p r = true
    · simp [setStatusFirst, hr]
    · simp only [Bool.not_eq_true] at hr
      simp [setStatusFirst, hr, ih]

theorem setStatusFirst_endpoints {p : Circle → Bool} {s : Status} {l : List Circle} :
    ∀ x ∈ setStatusFirst p s l,
      ∃ y ∈ l, x.requester = y.requester ∧ x.receiver = y.receiver := by
  induction l with
  | nil => intro x hx; cases hx
  | cons r rs ih =>
    intro x hx
    by_cases hr : p r = true
    · rw [setStatusFirst, if_pos hr] at hx
      rcases List.mem_cons.mp hx with hx | hx
      · exact ⟨r, List.mem_cons_self r rs, by rw [hx]; exact ⟨rfl, rfl⟩⟩
      · exact ⟨x, List.mem_cons_of_mem r hx, rfl, rfl⟩
    · rw [setStatusFirst, if_neg hr] at hx
      rcases List.mem_cons.mp hx with hx | hx
      · exact ⟨r, List.mem_cons_self r rs, by rw [hx]; exact ⟨rfl, rfl⟩⟩
      · rcases ih x hx with ⟨y, hy, hxy⟩
        exact ⟨y, List.mem_cons_of_mem r hy, hxy⟩

theorem filter_pairFilter_setStatusFirst (p : Circle → Bool) (s : Status)
    (a b : Nat) (l : List Circle) :
    ((setStatusFirst p s l).filter (pairFilter a b)).length
      = (l.filter (pairFilter a b)).length := by
  induction l with
  | nil => rfl
  | cons r rs ih =>
    by_cases hr : p r = true
    · rw [setStatusFirst, if_pos hr]
      have hpf : pairFilter a b { r with status := s } = pairFilter a b r := rfl
      by_cases hm : pairFilter a b r = true
      · rw [List.filter_cons_of_pos (by rw [hpf]; exact hm),
          List.filter_cons_of_pos hm]
        simp
      · rw [List.filter_cons_of_neg (by rw [hpf]; simpa using hm),
          List.filter_cons_of_neg (by simpa using hm)]
    · rw [setStatusFirst, if_neg hr]
      by_cases hm : pairFilter a b r = true
      · rw [List.filter_cons_of_pos hm, List.filter_cons_of_pos hm]
        simpa using ih
      · rw [List.filter_cons_of_neg (by simpa using hm),
          List.filter_cons_of_neg (by simpa using hm)]
        exact ih

theorem tableWf_of_sublist {cs ds : List Circle} (hsub : ds.Sublist cs)
    (h : TableWf cs) : TableWf ds := by
  refine ⟨fun r hr => h.1 r (hsub.subset hr), fun a b => ?_⟩
  exact le_trans (List.Sublist.length_le (hsub.filter (pairFilter a b))) (h.2 a b)

theorem invite_snd_cases (db : DB) (c t : Nat) :
    (invite_to_circle db c t).2 = db
    ∨ ((t == c) = false ∧ db.circles.find? (pairFilter c t) = Option.none
        ∧ (invite_to_circle db c t).2.circles
            = db.circles ++ [⟨c, t, Status.pending⟩])
    ∨ ((t == c) = false
        ∧ (∃ r, db.circles.find? (pairFilter c t) = Option.some r)
        ∧ (invite_to_circle db c t).2.circles
            = db.circles.eraseP (pairFilter c t) ++ [⟨c, t, Status.pending⟩]) := by
  unfold invite_to_circle
  by_cases h1 : (t == c) = true
  · left; simp [h1]
  · simp only [Bool.not_eq_true] at h1
    by_cases h2 : userExists db t = true
    · cases hf : db.circles.find? (pairFilter c t) with
      | none => right; left; exact ⟨h1, rfl, by simp [h1, h2, hf]⟩
      | some r =>
        cases hr : r.status with
        | pending =>
          left
          by_cases hreq : (r.requester == c) = true
          · simp [h1, h2, hf, hr, hreq]
          · simp only [Bool.not_eq_true] at hreq
            simp [h1, h2, hf, hr, hreq]
        | accepted => left; simp [h1, h2, hf, hr]
        | rejected => right; right; exact ⟨h1, ⟨r, rfl⟩, by simp [h1, h2, hf, hr]⟩
    · simp only [Bool.not_eq_true] at h2
      left; simp [h1, h2]

theorem accept_snd_cases (db : DB) (c o : Nat) :
    (accept_circle_invite db c o).2 = db
    ∨ (accept_circle_invite db c o).2.circles
        = setStatusFirst (pendingFromFilter o c) Status.accepted db.circles := by
  unfold accept_circle_invite
  by_cases h1 : (o == c) = true
  · left; simp [h1]
  · simp only [Bool.not_eq_true] at h1
    cases hf : db.circles.find? (pendingFromFilter o c) with
    | none => left; simp [h1, hf]
    | some r => right; simp [h1, hf]

theorem reject_snd_cases (db : DB) (c o : Nat) :
    (reject_circle_invite db c o).2 = db
    ∨ (reject_circle_invite db c o).2.circles
        = setStatusFirst (pendingFromFilter o c) Status.rejected db.circles := by
  unfold reject_circle_invite
  by_cases h1 : (o == c) = true
  · left; simp [h1]
  · simp only [Bool.not_eq_true] at h1
    cases hf : db.circles.find? (pendingFromFilter o c) with
    | none => left; simp [h1, hf]
    | some r => right; simp [h1, hf]

theorem remove_snd_cases (db : DB) (c o : Nat) :
    (remove_circle_connection db c o).2 = db
    ∨ (remove_circle_connection db c o).2.circles
        = db.circles.eraseP (acceptedPairFilter c o) := by
  unfold remove_circle_connection
  by_cases h1 : (o == c) = true
  · left; simp [h1]
  · simp only [Bool.not_eq_true] at h1
    cases hf : db.circles.find? (acceptedPairFilter c o) with
    | none => left; simp [h1, hf]
    | some r => right; simp [h1, hf]

theorem tableWf_append_new {cs : List Circle} {c t : Nat}
    (h : TableWf cs) (hct : c ≠ t)
    (hnone : cs.filter (pairFilter c t) = []) :
    TableWf (cs ++ [⟨c, t, Status.pending⟩]) := by
  constructor
  · intro r hr
    rcases List.mem_append.mp hr with hr | hr
    · exact h.1 r hr
    · rcases List.mem_singleton.mp hr with rfl
      exact hct
  · intro a b
    rw [List.filter_append]
    by_cases hm : pairFilter a b ⟨c, t, Status.pending⟩ = true
    · have hagree := pairFilter_agree hm
      have hnil : cs.filter (pairFilter a b) = [] := by
        rw [List.filter_congr (fun x _ => hagree x)]; exact hnone
      rw [hnil, List.filter_cons_of_pos hm]
      simp
    · rw [List.filter_cons_of_neg (by simpa using hm)]
      simpa using h.2 a b

theorem tableWf_invite (db : DB) (c t : Nat) (h : TableWf db.circles) :
    TableWf ((invite_to_circle db c t).2).circles := by
  rcases invite_snd_cases db c t with heq | ⟨hne, hf, heq⟩ | ⟨hne, ⟨r, hf⟩, heq⟩
  · rw [heq]; exact h
  · rw [heq]
    refine tableWf_append_new h (fun hct => by simp [hct] at hne) ?_
    exact List.filter_eq_nil_iff.mpr (by simpa using List.find?_eq_none.mp hf)
  · rw [heq]
    have hwf : TableWf (db.circles.eraseP (pairFilter c t)) :=
      tableWf_of_sublist (List.eraseP_sublist _) h
    refine tableWf_append_new hwf (fun hct => by simp [hct] at hne) ?_
    exact filter_eraseP_of_length_le_one (h.2 c t)

theorem tableWf_setStatusFirst (p : Circle → Bool) (s : Status)
    {cs : List Circle} (h : TableWf cs) : TableWf (setStatusFirst p s cs) := by
  constructor
  · intro r hr
    rcases setStatusFirst_endpoints r hr with ⟨y, hy, hreq, hrec⟩
    rw [hreq, hrec]
    exact h.1 y hy
  · intro a b
    rw [filter_pairFilter_setStatusFirst]
    exact h.2 a b

theorem tableWf_applyOp (db : DB) (op : Op) (h : TableWf db.circles) :
    TableWf (applyOp db op).circles := by
  cases op with
  | invite c t => exact tableWf_invite db c t h
  | accept c t =>
    show TableWf ((accept_circle_invite db c t).2).circles
    rcases accept_snd_cases db c t with heq | heq
    · rw [heq]; exact h
    · rw [heq]; exact tableWf_setStatusFirst _ _ h
  | reject c t =>
    show TableWf ((reject_circle_invite db c t).2).circles
    rcases reject_snd_cases db c t with heq | heq
    · rw [heq]; exact h
    · rw [heq]; exact tableWf_setStatusFirst _ _ h
  | remove c t =>
    show TableWf ((remove_circle_connection db c t).2).circles
    rcases remove_snd_cases db c t with heq | heq
    · rw [heq]; exact h
    · rw [heq]; exact tableWf_of_sublist (List.eraseP_sublist _) h

theorem tableWf_runOps (ops : List Op) (db : DB) (h : TableWf db.circles) :
    TableWf (runOps db ops).circles := by
  induction ops generalizing db with
  | nil => exact h
  | cons op rest ih =>
    rw [runOps, List.foldl_cons]
    exact ih (applyOp db op) (tableWf_applyOp db op h)

theorem filter_and_sublist {α : Type} (p q : α → Bool) (l : List α) :
    (l.filter (fun x => p x && q x)).Sublist (l.filter p) := by
  have h1 : l.filter (fun x => p x && q x) = (l.filter p).filter q := by
    rw [List.filter_filter]
    exact List.filter_congr (fun x _ => by rw [Bool.and_comm])
  rw [h1]
  exact List.filter_sublist _

/-- C1: starting from an empty relationship table, after any sequence of
Invite, Accept, Reject and Remove operations, every unordered pair of
identities has at most one row with status pending or accepted, and every
row satisfies requester ≠ receiver. -/
theorem C1_pair_uniqueness_invariant (users : List User) (ops : List Op) (a b : Nat) :
    (((runOps ⟨users, []⟩ ops).circles.filter
        (fun r => pairFilter a b r
          && (r.status == Status.pending || r.status == Status.accepted))).length ≤ 1)
    ∧ ∀ r ∈ (runOps ⟨users, []⟩ ops).circles, r.requester ≠ r.receiver := by
  have hwf : TableWf (runOps ⟨users, []⟩ ops).circles :=
    tableWf_runOps ops ⟨users, []⟩
      ⟨fun r hr => absurd hr (List.not_mem_nil r), fun a b => by simp⟩
  refine ⟨?_, hwf.1⟩
  exact le_trans (List.Sublist.length_le (filter_and_sublist _ _ _)) (hwf.2 a b)

/-- Witness for C1 at the concrete run Invite(1,2); Accept(2,1). -/
theorem C1_pair_uniqueness_invariant_witness :
    (((runOps ⟨demoUsers, []⟩ [Op.invite 1 2, Op.accept 2 1]).circles.filter
        (fun r => pairFilter 1 2 r
          && (r.status == Status.pending || r.status == Status.accepted))).length ≤ 1)
    ∧ (Circle.mk 1 2 Status.accepted).requester ≠ (Circle.mk 1 2 Status.accepted).receiver :=
  ⟨(C1_pair_uniqueness_invariant demoUsers [Op.invite 1 2, Op.accept 2 1] 1 2).1,
   (C1_pair_uniqueness_invariant demoUsers [Op.invite 1 2, Op.accept 2 1] 1 2).2
     ⟨1, 2, Status.accepted⟩ (by decide)⟩

/-- C2: Invite(c,t) fails with SelfReference when t = c, otherwise with
TargetNotFound when t has no user record; otherwise by the existing row of
the pair: none ⇒ fresh pending row appended; pending from c ⇒
DuplicateInvite; pending from t ⇒ ReverseInvitePending; accepted ⇒
AlreadyConnected; rejected ⇒ that row deleted and a fresh pending row
appended. Every failing Invite leaves the table unchanged. -/
theorem C2_invite_case_analysis (db : DB) (c t : Nat) :
    (t = c → invite_to_circle db c t = (Except.error SocialError.selfReference, db))
    ∧ (t ≠ c → userExists db t = false →
        invite_to_circle db c t = (Except.error SocialError.targetNotFound, db))
    ∧ (t ≠ c → userExists db t = true → pairRows db c t = [] →
        invite_to_circle db c t
          = (Except.ok ⟨c, t, Status.pending⟩,
             { db with circles := db.circles ++ [⟨c, t, Status.pending⟩] }))
    ∧ (∀ r, t ≠ c → userExists db t = true → pairRows db c t = [r] →
        ((r.status = Status.pending → r.requester = c →
            invite_to_circle db c t = (Except.error SocialError.duplicateInvite, db))
         ∧ (r.status = Status.pending → r.requester = t →
            invite_to_circle db c t = (Except.error SocialError.reverseInvitePending, db))
         ∧ (r.status = Status.accepted →
            invite_to_circle db c t = (Except.error SocialError.alreadyConnected, db))
         ∧ (r.status = Status.rejected →
            invite_to_circle db c t
              = (Except.ok ⟨c, t, Status.pending⟩,
                 { db with circles :=
                    db.circles.eraseP (pairFilter c t) ++ [⟨c, t, Status.pending⟩] }))))
    ∧ (∀ e, (invite_to_circle db c t).1 = Except.error e →
        (invite_to_circle db c t).2 = db) := by
  refine ⟨?_, ?_, ?_, ?_, ?_⟩
  · intro h
    subst h
    simp [invite_to_circle]
  · intro hne hex
    simp [invite_to_circle, hne, hex]
  · intro hne hex hrows
    have hf : db.circles.find? (pairFilter c t) = Option.none := by
      rw [find?_eq_filter_head?, show db.circles.filter (pairFilter c t) = [] from hrows]
      rfl
    simp [invite_to_circle, hne, hex, hf]
  · intro r hne hex hrows
    have hf : db.circles.find? (pairFilter c t) = Option.some r :=
      find?_of_filter_singleton hrows
    refine ⟨?_, ?_, ?_, ?_⟩
    · intro hst hreq
      simp [invite_to_circle, hne, hex, hf, hst, hreq]
    · intro hst hreq
      have hreqc : r.requester ≠ c := by rw [hreq]; exact hne
      simp [invite_to_circle, hne, hex, hf, hst, hreqc]
    · intro hst
      simp [invite_to_circle, hne, hex, hf, hst]
    · intro hst
      simp [invite_to_circle, hne, hex, hf, hst]
  · intro e he
    by_cases h1 : t = c
    · subst h1
      simp [invite_to_circle]
    · by_cases h2 : userExists db t = true
      · cases hf : db.circles.find? (pairFilter c t) with
        | none =>
          rw [invite_to_circle] at he
          simp [h1, h2, hf] at he
        | some r =>
          cases hr : r.status with
          | pending =>
            by_cases hreq : r.requester = c
            · simp [invite_to_circle, h1, h2, hf, hr, hreq]
            · simp [invite_to_circle, h1, h2, hf, hr, hreq]
          | accepted => simp [invite_to_circle, h1, h2, hf, hr]
          | rejected =>
            rw [invite_to_circle] at he
            simp [h1, h2, hf, hr] at he
      · simp only [Bool.not_eq_true] at h2
        simp [invite_to_circle, h1, h2]

/-- Witness for C2 at the re-invite-after-rejection branch. -/
theorem C2_invite_case_analysis_witness :
    invite_to_circle dbC2 1 2
      = (Except.ok ⟨1, 2, Status.pending⟩,
         { dbC2 with circles :=
            dbC2.circles.eraseP (pairFilter 1 2) ++ [⟨1, 2, Status.pending⟩] }) :=
  ((C2_invite_case_analysis dbC2 1 2).2.2.2.1 ⟨2, 1, Status.rejected⟩
    (by decide) (by decide) (by decide)).2.2.2 rfl

theorem pendingFromFilter_iff (o c : Nat) (r : Circle) :
    pendingFromFilter o c r = true
      ↔ (r.requester = o ∧ r.receiver = c ∧ r.status = Status.pending) := by
  simp [pendingFromFilter, and_assoc]

/-- C3 counterexample: with an empty table, Accept(0,0) fails with the
self-reference error, not with NoPendingInvite as the unrestricted claim
requires. -/
theorem C3_counterexample :
    (DB.mk [] []).circles = []
    ∧ (accept_circle_invite ⟨[], []⟩ 0 0).1 = Except.error SocialError.selfReference
    ∧ (Except.error SocialError.selfReference : Except SocialError Circle)
        ≠ Except.error SocialError.noPendingInvite := by
  refine ⟨rfl, rfl, fun h => absurd (Except.error.inj h) (by decide)⟩

/-- C3 (amended with otherUser ≠ currentUser): Accept and Reject succeed
exactly when a pending row from otherUser to currentUser exists; Accept sets
its status to accepted and Reject to rejected, keeping the row count
unchanged; with no such row both fail with NoPendingInvite and leave the
state unchanged. Accept(A,A)/Reject(A,A) fail with SelfReference. -/
theorem C3_accept_reject_directionality (db : DB) (cur other : Nat)
    (hne : other ≠ cur) :
    ((accept_circle_invite db cur other).1.isOk = true
        ↔ ∃ r ∈ db.circles,
            r.requester = other ∧ r.receiver = cur ∧ r.status = Status.pending)
    ∧ ((reject_circle_invite db cur other).1.isOk = true
        ↔ ∃ r ∈ db.circles,
            r.requester = other ∧ r.receiver = cur ∧ r.status = Status.pending)
    ∧ (db.circles.find? (pendingFromFilter other cur) = Option.none →
        accept_circle_invite db cur other = (Except.error SocialError.noPendingInvite, db)
        ∧ reject_circle_invite db cur other = (Except.error SocialError.noPendingInvite, db))
    ∧ (∀ r, db.circles.find? (pendingFromFilter other cur) = Option.some r →
        accept_circle_invite db cur other
          = (Except.ok { r with status := Status.accepted },
             { db with circles :=
                setStatusFirst (pendingFromFilter other cur) Status.accepted db.circles })
        ∧ (accept_circle_invite db cur other).2.circles.length = db.circles.length
        ∧ reject_circle_invite db cur other
          = (Except.ok { r with status := Status.rejected },
             { db with circles :=
                setStatusFirst (pendingFromFilter other cur) Status.rejected db.circles })
        ∧ (reject_circle_invite db cur other).2.circles.length = db.circles.length)
    ∧ accept_circle_invite db cur cur = (Except.error SocialError.selfReference, db)
    ∧ reject_circle_invite db cur cur = (Except.error SocialError.selfReference, db) := by
  have hexists : (db.circles.find? (pendingFromFilter other cur)).isSome = true
      ↔ ∃ r ∈ db.circles,
          r.requester = other ∧ r.receiver = cur ∧ r.status = Status.pending := by
    rw [List.find?_isSome]
    constructor
    · rintro ⟨r, hr, hp⟩
      exact ⟨r, hr, (pendingFromFilter_iff other cur r).mp hp⟩
    · rintro ⟨r, hr, hp⟩
      exact ⟨r, hr, (pendingFromFilter_iff other cur r).mpr hp⟩
  refine ⟨?_, ?_, ?_, ?_, ?_, ?_⟩
  · rw [← hexists]
    cases hf : db.circles.find? (pendingFromFilter other cur) with
    | none => simp [accept_circle_invite, hne, hf, Except.isOk, Except.toBool]
    | some r => simp [accept_circle_invite, hne, hf, Except.isOk, Except.toBool]
  · rw [← hexists]
    cases hf : db.circles.find? (pendingFromFilter other cur) with
    | none => simp [reject_circle_invite, hne, hf, Except.isOk, Except.toBool]
    | some r => simp [reject_circle_invite, hne, hf, Except.isOk, Except.toBool]
  · intro hf
    constructor
    · simp [accept_circle_invite, hne, hf]
    · simp [reject_circle_invite, hne, hf]
  · intro r hf
    refine ⟨?_, ?_, ?_, ?_⟩
    · simp [accept_circle_invite, hne, hf]
    · simp [accept_circle_invite, hne, hf, setStatusFirst_length]
    · simp [reject_circle_invite, hne, hf]
    · simp [reject_circle_invite, hne, hf, setStatusFirst_length]
  · simp [accept_circle_invite]
  · simp [reject_circle_invite]

/-- Witness for C3 at Accept(1,2) on a pending invite from 2 to 1. -/
theorem C3_accept_reject_directionality_witness :
    accept_circle_invite dbC3 1 2
      = (Except.ok ⟨2, 1, Status.accepted⟩,
         { dbC3 with circles :=
            setStatusFirst (pendingFromFilter 2 1) Status.accepted dbC3.circles })
    ∧ accept_circle_invite dbC3 1 1 = (Except.error SocialError.selfReference, dbC3) :=
  ⟨((C3_accept_reject_directionality dbC3 1 2 (by decide)).2.2.2.1
      ⟨2, 1, Status.pending⟩ (by decide)).1,
   (C3_accept_reject_directionality dbC3 1 2 (by decide)).2.2.2.2.1⟩

/-- C4 counterexample: with an empty table no accepted row exists for the
pair {0,0}, yet Remove(0,0) fails with the self-reference error rather than
NotConnected as the unrestricted claim requires. -/
theorem C4_counterexample :
    (DB.mk [] []).circles.filter (acceptedPairFilter 0 0) = []
    ∧ (remove_circle_connection ⟨[], []⟩ 0 0).1 = Except.error SocialError.selfReference
    ∧ (Except.error SocialError.selfReference : Except SocialError Unit)
        ≠ Except.error SocialError.notConnected := by
  refine ⟨rfl, rfl, fun h => absurd (Except.error.inj h) (by decide)⟩

/-- C4 (amended with otherUser ≠ currentUser): Remove deletes the accepted
row of the unordered pair when one exists and fails with NotConnected
(leaving the state unchanged) when none does; after a successful Remove in a
state with at most one accepted row for the pair, Remove in the opposite
direction fails with NotConnected. Remove(A,A) fails with SelfReference. -/
theorem C4_remove_semantics (db : DB) (cur other : Nat) (hne : other ≠ cur) :
    (db.circles.filter (acceptedPairFilter cur other) = [] →
        remove_circle_connection db cur other
          = (Except.error SocialError.notConnected, db))
    ∧ (∀ r, db.circles.filter (acceptedPairFilter cur other) = [r] →
        remove_circle_connection db cur other
          = (Except.ok (),
             { db with circles := db.circles.eraseP (acceptedPairFilter cur other) })
        ∧ ((remove_circle_connection db cur other).2.circles.filter
              (acceptedPairFilter cur other)) = [])
    ∧ ((remove_circle_connection db cur other).1.isOk = true →
        (db.circles.filter (acceptedPairFilter cur other)).length ≤ 1 →
        (remove_circle_connection (remove_circle_connection db cur other).2 other cur).1
          = Except.error SocialError.notConnected)
    ∧ remove_circle_connection db cur cur
        = (Except.error SocialError.selfReference, db) := by
  have hpt : ∀ r, acceptedPairFilter other cur r = acceptedPairFilter cur other r := by
    intro r
    unfold acceptedPairFilter
    rw [pairFilter_comm]
  refine ⟨?_, ?_, ?_, ?_⟩
  · intro hrows
    have hf : db.circles.find? (acceptedPairFilter cur other) = Option.none := by
      rw [find?_eq_filter_head?, hrows]; rfl
    simp [remove_circle_connection, hne, hf]
  · intro r hrows
    have hf : db.circles.find? (acceptedPairFilter cur other) = Option.some r :=
      find?_of_filter_singleton hrows
    constructor
    · simp [remove_circle_connection, hne, hf]
    · have hlen1 : (db.circles.filter (acceptedPairFilter cur other)).length ≤ 1 := by
        rw [hrows]; simp
      have hsnd : (remove_circle_connection db cur other).2.circles
          = db.circles.eraseP (acceptedPairFilter cur other) := by
        simp [remove_circle_connection, hne, hf]
      rw [hsnd]
      exact filter_eraseP_of_length_le_one hlen1
  · intro hok hlen
    cases hf : db.circles.find? (acceptedPairFilter cur other) with
    | none =>
      rw [remove_circle_connection, if_neg (by simp [hne]), hf] at hok
      simp [Except.isOk, Except.toBool] at hok
    | some r =>
      have hsnd : (remove_circle_connection db cur other).2.circles
          = db.circles.eraseP (acceptedPairFilter cur other) := by
        simp [remove_circle_connection, hne, hf]
      have hnil : (remove_circle_connection db cur other).2.circles.filter
          (acceptedPairFilter other cur) = [] := by
        rw [hsnd, List.filter_congr (fun x _ => hpt x)]
        exact filter_eraseP_of_length_le_one hlen
      have hf2 : (remove_circle_connection db cur other).2.circles.find?
          (acceptedPairFilter other cur) = Option.none := by
        rw [find?_eq_filter_head?, hnil]; rfl
      have hne2 : cur ≠ other := fun h => hne h.symm
      generalize hdb2 : (remove_circle_connection db cur other).2 = db2 at hf2
      simp [remove_circle_connection, hne2, hf2]
  · simp [remove_circle_connection]

/-- Witness for C4: Remove(1,2) deletes the accepted row and Remove(2,1)
immediately afterwards fails with NotConnected. -/
theorem C4_remove_semantics_witness :
    remove_circle_connection dbC4 1 2
      = (Except.ok (),
         { dbC4 with circles := dbC4.circles.eraseP (acceptedPairFilter 1 2) })
    ∧ (remove_circle_connection (remove_circle_connection dbC4 1 2).2 2 1).1
        = Except.error SocialError.notConnected :=
  ⟨((C4_remove_semantics dbC4 1 2 (by decide)).2.1 ⟨1, 2, Status.accepted⟩ (by decide)).1,
   (C4_remove_semantics dbC4 1 2 (by decide)).2.2.1 (by decide) (by decide)⟩

/-- C5: the connection-status mapping — no row or a rejected row yields
(none, false); an accepted row yields (connected, false); a pending row
yields (pending, requester == currentUser). -/
theorem C5_connection_status_mapping (db : DB) (cur other : Nat) :
    (pairRows db cur other = [] →
        get_connection_status db cur other = (ConnStatus.none, false))
    ∧ ∀ r, pairRows db cur other = [r] →
        ((r.status = Status.rejected →
            get_connection_status db cur other = (ConnStatus.none, false))
         ∧ (r.status = Status.accepted →
            get_connection_status db cur other = (ConnStatus.connected, false))
         ∧ (r.status = Status.pending →
            get_connection_status db cur other
              = (ConnStatus.pending, r.requester == cur))) := by
  constructor
  · intro hrows
    have hf : db.circles.find? (pairFilter cur other) = Option.none := by
      rw [find?_eq_filter_head?, show db.circles.filter (pairFilter cur other) = [] from hrows]
      rfl
    simp [get_connection_status, hf]
  · intro r hrows
    have hf : db.circles.find? (pairFilter cur other) = Option.some r :=
      find?_of_filter_singleton hrows
    refine ⟨?_, ?_, ?_⟩
    · intro hst
      simp [get_connection_status, hf, hst]
    · intro hst
      simp [get_connection_status, hf, hst]
    · intro hst
      by_cases hreq : (r.requester == cur) = true
      · simp [get_connection_status, hf, hst, hreq]
      · simp only [Bool.not_eq_true] at hreq
        simp [get_connection_status, hf, hst, hreq]

/-- Witness for C5 at a pending row invited by the current user. -/
theorem C5_connection_status_mapping_witness :
    get_connection_status ⟨demoUsers, [⟨1, 2, Status.pending⟩]⟩ 1 2
      = (ConnStatus.pending, true) :=
  ((C5_connection_status_mapping ⟨demoUsers, [⟨1, 2, Status.pending⟩]⟩ 1 2).2
    ⟨1, 2, Status.pending⟩ (by decide)).2.2 rfl

/-- C6 counterexample: re-inviting after rejection performs two separate
commits, and the first committed state holds no row at all for the pair —
the rejected row is deleted and the fresh pending row is not yet committed,
contradicting the single-transaction claim. -/
theorem C6_counterexample :
    (⟨2, 1, Status.rejected⟩ : Circle) ∈ dbC6.circles
    ∧ (inviteCommits dbC6 1 2).length = 2
    ∧ (inviteCommits dbC6 1 2).head? = Option.some []
    ∧ ((inviteCommits dbC6 1 2).headD []).filter (pairFilter 1 2) = [] := by
  decide

/-- C6 (amended): Accept, Reject, Remove and non-re-invite Invite commit at
most once, error branches commit nothing, and on success the last commit is
the final state; but re-invite after rejection commits twice — the delete
of the rejected row is committed before the insert of the fresh pending
row, leaving a committed intermediate state with no row for the pair. -/
theorem C6_commit_granularity (db : DB) :
    (∀ c o, (acceptCommits db c o).length ≤ 1)
    ∧ (∀ c o, (rejectCommits db c o).length ≤ 1)
    ∧ (∀ c o, (removeCommits db c o).length ≤ 1)
    ∧ (∀ c t, (inviteCommits db c t).length ≤ 2)
    ∧ (∀ c t e, (invite_to_circle db c t).1 = Except.error e →
        inviteCommits db c t = [])
    ∧ (∀ c t, (invite_to_circle db c t).1.isOk = true →
        (inviteCommits db c t).getLast? = Option.some (invite_to_circle db c t).2.circles)
    ∧ (∀ c t r, t ≠ c → userExists db t = true → pairRows db c t = [r] →
        r.status = Status.rejected →
        inviteCommits db c t
          = [db.circles.eraseP (pairFilter c t),
             db.circles.eraseP (pairFilter c t) ++ [⟨c, t, Status.pending⟩]]
        ∧ (db.circles.eraseP (pairFilter c t)).filter (pairFilter c t) = []) := by
  refine ⟨?_, ?_, ?_, ?_, ?_, ?_, ?_⟩
  · intro c o
    unfold acceptCommits
    split
    · simp
    · split <;> simp
  · intro c o
    unfold rejectCommits
    split
    · simp
    · split <;> simp
  · intro c o
    unfold removeCommits
    split
    · simp
    · split <;> simp
  · intro c t
    unfold inviteCommits
    split
    · simp
    · split
      · simp
      · split
        · split <;> simp
        · simp
  · intro c t e he
    by_cases h1 : t = c
    · subst h1
      simp [inviteCommits]
    · by_cases h2 : userExists db t = true
      · cases hf : db.circles.find? (pairFilter c t) with
        | none =>
          rw [invite_to_circle] at he
          simp [h1, h2, hf] at he
        | some r =>
          cases hr : r.status with
          | pending => simp [inviteCommits, h1, h2, hf, hr]
          | accepted => simp [inviteCommits, h1, h2, hf, hr]
          | rejected =>
            rw [invite_to_circle] at he
            simp [h1, h2, hf, hr] at he
      · simp only [Bool.not_eq_true] at h2
        simp [inviteCommits, h1, h2]
  · intro c t hok
    by_cases h1 : t = c
    · subst h1
      rw [invite_to_circle] at hok
      simp [Except.isOk, Except.toBool] at hok
    · by_cases h2 : userExists db t = true
      · cases hf : db.circles.find? (pairFilter c t) with
        | none => simp [inviteCommits, invite_to_circle, h1, h2, hf]
        | some r =>
          cases hr : r.status with
          | pending =>
            rw [invite_to_circle] at hok
            by_cases hreq : r.requester = c
            · simp [h1, h2, hf, hr, hreq, Except.isOk, Except.toBool] at hok
            · simp [h1, h2, hf, hr, hreq, Except.isOk, Except.toBool] at hok
          | accepted =>
            rw [invite_to_circle] at hok
            simp [h1, h2, hf, hr, Except.isOk, Except.toBool] at hok
          | rejected => simp [inviteCommits, invite_to_circle, h1, h2, hf, hr]
      · simp only [Bool.not_eq_true] at h2
        rw [invite_to_circle] at hok
        simp [h1, h2, Except.isOk, Except.toBool] at hok
  · intro c t r hne hex hrows hst
    have hf : db.circles.find? (pairFilter c t) = Option.some r :=
      find?_of_filter_singleton hrows
    constructor
    · simp [inviteCommits, hne, hex, hf, hst]
    · exact filter_eraseP_of_length_le_one (by
        rw [show db.circles.filter (pairFilter c t) = [r] from hrows]; simp)

/-- Witness for C6 (amended) at the concrete re-invite on `dbC6`. -/
theorem C6_commit_granularity_witness :
    inviteCommits dbC6 1 2
      = [dbC6.circles.eraseP (pairFilter 1 2),
         dbC6.circles.eraseP (pairFilter 1 2) ++ [⟨1, 2, Status.pending⟩]] :=
  ((C6_commit_granularity dbC6).2.2.2.2.2.2 1 2 ⟨2, 1, Status.rejected⟩
    (by decide) (by decide) (by decide) rfl).1

theorem setStatusFirst_append {p : Circle → Bool} {s : Status} {l1 l2 : List Circle}
    (h : ∀ x ∈ l1, p x = false) :
    setStatusFirst p s (l1 ++ l2) = l1 ++ setStatusFirst p s l2 := by
  induction l1 with
  | nil => rfl
  | cons x xs ih =>
    rw [List.cons_append]
    simp only [setStatusFirst]
    rw [if_neg (by simp [h x (List.mem_cons_self x xs)]),
      ih (fun y hy => h y (List.mem_cons_of_mem x hy)), List.cons_append]

/-- C7: ConnectionsCount counts the accepted rows with the user as an
endpoint; from a state where neither A nor B occurs in any row, after
Invite(A,B) both counts are 0 and after the subsequent Accept(B,A) both
are 1. -/
theorem C7_count_correctness (db : DB) (A B : Nat) (hne : A ≠ B)
    (hB : userExists db B = true)
    (hno : ∀ r ∈ db.circles,
      r.requester ≠ A ∧ r.receiver ≠ A ∧ r.requester ≠ B ∧ r.receiver ≠ B) :
    (∀ u, get_user_connections_count db u
        = (db.circles.filter (fun r =>
            (r.requester == u || r.receiver == u)
              && r.status == Status.accepted)).length)
    ∧ get_user_connections_count db A = 0
    ∧ get_user_connections_count db B = 0
    ∧ get_user_connections_count (applyOp db (Op.invite A B)) A = 0
    ∧ get_user_connections_count (applyOp db (Op.invite A B)) B = 0
    ∧ get_user_connections_count
        (applyOp (applyOp db (Op.invite A B)) (Op.accept B A)) A = 1
    ∧ get_user_connections_count
        (applyOp (applyOp db (Op.invite A B)) (Op.accept B A)) B = 1 := by
  have hBA : (B == A) = false := by
    simp only [beq_eq_false_iff_ne, ne_eq]
    exact fun h => hne h.symm
  have hAB : (A == B) = false := by simp [hne]
  have hfpair : db.circles.find? (pairFilter A B) = Option.none := by
    rw [List.find?_eq_none]
    intro r hr
    obtain ⟨h1, h2, h3, h4⟩ := hno r hr
    simp [pairFilter, h1, h2, h3, h4]
  have hdb1 : applyOp db (Op.invite A B)
      = { db with circles := db.circles ++ [⟨A, B, Status.pending⟩] } := by
    show (invite_to_circle db A B).2 = _
    simp [invite_to_circle, hBA, hB, hfpair]
  have hcnt0 : ∀ u, u = A ∨ u = B →
      db.circles.filter (fun r =>
        (r.requester == u || r.receiver == u) && r.status == Status.accepted) = [] := by
    intro u hu
    rw [List.filter_eq_nil_iff]
    intro r hr
    obtain ⟨h1, h2, h3, h4⟩ := hno r hr
    rcases hu with rfl | rfl <;> simp [h1, h2, h3, h4]
  have hnewA : ((⟨A, B, Status.pending⟩ : Circle).requester == A
      || (⟨A, B, Status.pending⟩ : Circle).receiver == A) = true := by simp
  have hpnew : pendingFromFilter A B ⟨A, B, Status.pending⟩ = true := by
    simp [pendingFromFilter]
  have hpold : ∀ x ∈ db.circles, pendingFromFilter A B x = false := by
    intro x hx
    obtain ⟨h1, _, _, _⟩ := hno x hx
    simp [pendingFromFilter, h1]
  have hfacc : (db.circles ++ [(⟨A, B, Status.pending⟩ : Circle)]).find?
      (pendingFromFilter A B) = Option.some (⟨A, B, Status.pending⟩ : Circle) := by
    rw [find?_eq_filter_head?, List.filter_append,
      List.filter_eq_nil_iff.mpr (by simpa using hpold),
      List.filter_cons_of_pos hpnew]
    rfl
  have hdb2 : applyOp (applyOp db (Op.invite A B)) (Op.accept B A)
      = { db with circles := db.circles ++ [⟨A, B, Status.accepted⟩] } := by
    rw [hdb1]
    show (accept_circle_invite _ B A).2 = _
    simp only [accept_circle_invite]
    rw [if_neg (by simp [hne]), hfacc]
    simp only
    rw [setStatusFirst_append hpold]
    simp [setStatusFirst, hpnew]
  refine ⟨fun u => rfl, ?_, ?_, ?_, ?_, ?_, ?_⟩
  · show (db.circles.filter _).length = 0
    rw [hcnt0 A (Or.inl rfl)]
    rfl
  · show (db.circles.filter _).length = 0
    rw [hcnt0 B (Or.inr rfl)]
    rfl
  · rw [hdb1]
    show ((db.circles ++ _).filter _).length = 0
    rw [List.filter_append, hcnt0 A (Or.inl rfl)]
    simp
  · rw [hdb1]
    show ((db.circles ++ _).filter _).length = 0
    rw [List.filter_append, hcnt0 B (Or.inr rfl)]
    simp
  · rw [hdb2]
    show ((db.circles ++ _).filter _).length = 1
    rw [List.filter_append, hcnt0 A (Or.inl rfl)]
    simp
  · rw [hdb2]
    show ((db.circles ++ _).filter _).length = 1
    rw [List.filter_append, hcnt0 B (Or.inr rfl)]
    simp

/-- Witness for C7 at users 1, 2 on the empty table. -/
theorem C7_count_correctness_witness :
    get_user_connections_count (applyOp ⟨demoUsers, []⟩ (Op.invite 1 2)) 1 = 0
    ∧ get_user_connections_count
        (applyOp (applyOp ⟨demoUsers, []⟩ (Op.invite 1 2)) (Op.accept 2 1)) 1 = 1
    ∧ get_user_connections_count
        (applyOp (applyOp ⟨demoUsers, []⟩ (Op.invite 1 2)) (Op.accept 2 1)) 2 = 1 :=
  ⟨(C7_count_correctness ⟨demoUsers, []⟩ 1 2 (by decide) (by decide) (by decide)).2.2.2.1,
   (C7_count_correctness ⟨demoUsers, []⟩ 1 2 (by decide) (by decide) (by decide)).2.2.2.2.2.1,
   (C7_count_correctness ⟨demoUsers, []⟩ 1 2 (by decide) (by decide) (by decide)).2.2.2.2.2.2⟩

/-- C8: when every accepted row of the user has its other endpoint in the
users table (the schema's foreign-key integrity), Connections(u) returns one
entry per accepted row with u as an endpoint, each entry identifying the
other endpoint, and total_count equals both the number of such rows and the
length of the connections list. -/
theorem C8_connections_completeness (db : DB) (cur u : Nat)
    (hex : ∀ r ∈ db.circles.filter (connectionsFilter u),
        userExists db (otherEndpoint u r) = true) :
    ((get_user_connections db cur u).connections.map (fun e => e.id)
        = (db.circles.filter (connectionsFilter u)).map (otherEndpoint u))
    ∧ (get_user_connections db cur u).total_count
        = (db.circles.filter (connectionsFilter u)).length
    ∧ (get_user_connections db cur u).total_count
        = (get_user_connections db cur u).connections.length := by
  have key : ∀ rows : List Circle,
      (∀ r ∈ rows, userExists db (otherEndpoint u r) = true) →
      ((rows.filterMap (fun r =>
          (db.users.find? (fun us => us.id == otherEndpoint u r)).map
            (fun us => build_circle_user_response db us cur))).map (fun e => e.id)
        = rows.map (otherEndpoint u)) := by
    intro rows
    induction rows with
    | nil => intro _; rfl
    | cons r rs ih =>
      intro h
      obtain ⟨us, hus⟩ : ∃ us,
          db.users.find? (fun x => x.id == otherEndpoint u r) = Option.some us :=
        Option.isSome_iff_exists.mp (h r (List.mem_cons_self r rs))
      have hid : us.id = otherEndpoint u r := by
        simpa using List.find?_some hus
      simp only [List.filterMap_cons, hus, Option.map_some', List.map_cons]
      rw [ih (fun y hy => h y (List.mem_cons_of_mem r hy))]
      have : (build_circle_user_response db us cur).id = otherEndpoint u r := by
        simpa [build_circle_user_response] using hid
      rw [this]
  have hconn : (get_user_connections db cur u).connections
      = (db.circles.filter (connectionsFilter u)).filterMap (fun r =>
          (db.users.find? (fun us => us.id == otherEndpoint u r)).map
            (fun us => build_circle_user_response db us cur)) := rfl
  have hmap := key (db.circles.filter (connectionsFilter u)) hex
  refine ⟨by rw [hconn]; exact hmap, ?_, rfl⟩
  show (get_user_connections db cur u).connections.length = _
  have hlen : ((get_user_connections db cur u).connections.map (fun e => e.id)).length
      = ((db.circles.filter (connectionsFilter u)).map (otherEndpoint u)).length := by
    rw [hconn, hmap]
  rw [List.length_map, List.length_map] at hlen
  exact hlen

/-- Witness for C8 at user 1 of `dbC8`. -/
theorem C8_connections_completeness_witness :
    ((get_user_connections dbC8 1 1).connections.map (fun e => e.id)
        = (dbC8.circles.filter (connectionsFilter 1)).map (otherEndpoint 1))
    ∧ (get_user_connections dbC8 1 1).total_count
        = (dbC8.circles.filter (connectionsFilter 1)).length :=
  ⟨(C8_connections_completeness dbC8 1 1 (by decide)).1,
   (C8_connections_completeness dbC8 1 1 (by decide)).2.1⟩

/-- C9: the deprecated Follow endpoints are exact aliases — follow is
Invite, unfollow is Remove, and followers/following both return the
connections list of the Connections query. -/
theorem C9_follow_endpoints_alias (db : DB) (current_user target u : Nat) :
    follow_user_deprecated db current_user target
        = invite_to_circle db current_user target
    ∧ unfollow_user_deprecated db current_user target
        = remove_circle_connection db current_user target
    ∧ get_followers_deprecated db current_user u
        = (get_user_connections db current_user u).connections
    ∧ get_following_deprecated db current_user u
        = (get_user_connections db current_user u).connections :=
  ⟨rfl, rfl, rfl, rfl⟩

/-- C10: every search result is annotated with the caller's connection
status and the target's connections count, the caller never appears among
the results, and the result list length is at most the given limit. -/
theorem C10_search_annotations (db : DB) (cur : Nat) (q : String) (lim : Nat) :
    (search_users db cur q lim).length ≤ lim
    ∧ ∀ resp ∈ search_users db cur q lim,
        resp.id ≠ cur
        ∧ resp.connection_status = (get_connection_status db cur resp.id).1
        ∧ resp.is_invited_by_me = (get_connection_status db cur resp.id).2
        ∧ resp.connections_count = get_user_connections_count db resp.id := by
  have hsearch : search_users db cur q lim
      = (((db.users.filter (searchMatches q)).filter
          (fun u => !(u.id == cur))).take lim).map
            (fun u => build_circle_user_response db u cur) := rfl
  constructor
  · rw [hsearch, List.length_map, List.length_take]
    exact min_le_left _ _
  · intro resp hresp
    rw [hsearch] at hresp
    obtain ⟨u0, hu0, heq⟩ := List.mem_map.mp hresp
    have humem : u0 ∈ (db.users.filter (searchMatches q)).filter
        (fun u => !(u.id == cur)) := List.mem_of_mem_take hu0
    have hne : u0.id ≠ cur := by
      have := (List.mem_filter.mp humem).2
      simpa using this
    subst heq
    exact ⟨by simpa [build_circle_user_response] using hne,
      by simp [build_circle_user_response],
      by simp [build_circle_user_response],
      by simp [build_circle_user_response]⟩

/-- Witness for C10 at the query "bo" on the two-user directory. -/
theorem C10_search_annotations_witness :
    (search_users ⟨demoUsers, []⟩ 1 "bo" 10).length ≤ 10
    ∧ ((build_circle_user_response ⟨demoUsers, []⟩ (demoUser 2 "bob") 1).id ≠ 1
       ∧ (build_circle_user_response ⟨demoUsers, []⟩ (demoUser 2 "bob") 1).connection_status
           = (get_connection_status ⟨demoUsers, []⟩ 1
               (build_circle_user_response ⟨demoUsers, []⟩ (demoUser 2 "bob") 1).id).1
       ∧ (build_circle_user_response ⟨demoUsers, []⟩ (demoUser 2 "bob") 1).is_invited_by_me
           = (get_connection_status ⟨demoUsers, []⟩ 1
               (build_circle_user_response ⟨demoUsers, []⟩ (demoUser 2 "bob") 1).id).2
       ∧ (build_circle_user_response ⟨demoUsers, []⟩ (demoUser 2 "bob") 1).connections_count
           = get_user_connections_count ⟨demoUsers, []⟩
               (build_circle_user_response ⟨demoUsers, []⟩ (demoUser 2 "bob") 1).id) :=
  ⟨(C10_search_annotations ⟨demoUsers, []⟩ 1 "bo" 10).1,
   (C10_search_annotations ⟨demoUsers, []⟩ 1 "bo" 10).2
     (build_circle_user_response ⟨demoUsers, []⟩ (demoUser 2 "bob") 1) (by decide)⟩

end Tapcard
